import Mathlib

/-!
Shallow embedding of the `snowflake` crate (64-bit snowflake identifiers).

Machine integers are modelled as `Nat` (for `u8`/`u16`/`u64`) and `Int`
(for `i64`), with explicit `% 2^w` wherever the machine operation can
overflow, and explicit reinterpretation functions for the `as` casts.
Wall-clock reads (`Utc::now()`) are modelled by passing the millisecond
timestamp as an explicit argument.
-/

/-- Rust's `as i64` cast of an in-range `u64` value: two's-complement bit
reinterpretation. -/
def u64_as_i64 (n : Nat) : Int :=
  if n < 2 ^ 63 then (n : Int) else (n : Int) - 2 ^ 64

/-- Rust's `as u64` cast of an in-range `i64` value: two's-complement bit
reinterpretation. -/
def i64_as_u64 (x : Int) : Nat :=
  (x % (2 ^ 64 : Int)).toNat

/-- Wrapping of an integer into the `i64` range, as Rust release-mode
wrapping arithmetic produces it. -/
def i64_wrap (x : Int) : Int :=
  (x + 2 ^ 63) % 2 ^ 64 - 2 ^ 63

/-- The crate's default epoch constant `AIRDASH_EPOCH` (src/lib.rs). -/
def AIRDASH_EPOCH : Nat := 1420070400000

/-- Embedding of `value_from_parts` (src/snowflake.rs): `timestamp` is a
`u64` (< 2^64), `worker` and `process` are `u8` (< 2^8) widened to `u64`,
`increment` is a `u16` (< 2^16) widened to `u64`. The left shifts are
`u64` shifts, hence taken `% 2^64`; the ors cannot overflow. -/
def value_from_parts (timestamp worker process increment : Nat) : Nat :=
  let value := (timestamp <<< 22) % 2 ^ 64
  let value := value ||| ((worker <<< 17) % 2 ^ 64)
  let value := value ||| ((process <<< 12) % 2 ^ 64)
  let value := value ||| increment
  value

/-- Embedding of `struct Snowflake` (src/snowflake.rs): a packed `u64`
value and the epoch carried alongside it. -/
structure Snowflake where
  value : Nat
  epoch : Nat
deriving DecidableEq

/-- Embedding of `Snowflake::new_with_timestamp` (src/snowflake.rs): the
wall-clock `DateTime` argument is represented by its `timestamp_millis()`
value (an `i64`). `epoch as i64` is a bit reinterpretation, the `i64`
subtraction wraps, and the result is cast `as u64` before packing. -/
def Snowflake.new_with_timestamp (worker process increment : Nat)
    (timestamp_millis : Int) (epoch : Nat) : Snowflake :=
  let offset_timestamp_ms : Int := i64_wrap (timestamp_millis - u64_as_i64 epoch)
  { value := value_from_parts (i64_as_u64 offset_timestamp_ms) worker process increment,
    epoch := epoch }

/-- Embedding of `Snowflake::from_value` (src/snowflake.rs). -/
def Snowflake.from_value (value : Nat) (epoch : Nat) : Snowflake :=
  { value := value, epoch := epoch }

/-- Embedding of `Snowflake::as_u64` (src/snowflake.rs), i.e. `value()`. -/
def Snowflake.as_u64 (s : Snowflake) : Nat := s.value

/-- Embedding of `Snowflake::as_i64` (src/snowflake.rs): `value() as i64`. -/
def Snowflake.as_i64 (s : Snowflake) : Int := u64_as_i64 s.value

/-- Embedding of `Snowflake::worker` (src/snowflake.rs):
`((value >> 17) & 0b11111) as u8`. -/
def Snowflake.worker (s : Snowflake) : Nat := (s.value >>> 17) &&& 0b11111

/-- Embedding of `Snowflake::process` (src/snowflake.rs):
`((value >> 12) & 0b11111) as u8`. -/
def Snowflake.process (s : Snowflake) : Nat := (s.value >>> 12) &&& 0b11111

/-- Embedding of `Snowflake::increment` (src/snowflake.rs):
`(value & 0b111111111111) as u16`. -/
def Snowflake.increment (s : Snowflake) : Nat := s.value &&& 0b111111111111

/-- Embedding of `Snowflake::timestamp` (src/snowflake.rs): `value >> 22`. -/
def Snowflake.timestamp (s : Snowflake) : Nat := s.value >>> 22

/-- Embedding of `Snowflake::offset_timestamp` (src/snowflake.rs):
`timestamp() + epoch()`, a wrapping `u64` addition. -/
def Snowflake.offset_timestamp (s : Snowflake) : Nat :=
  (s.timestamp + s.epoch) % 2 ^ 64

/-- Embedding of `struct SnowflakeGenerator` (src/generator.rs): `worker`
and `process` are `u8`, `increment` is a `u16`, `epoch` is a `u64`. -/
structure SnowflakeGenerator where
  worker : Nat
  process : Nat
  increment : Nat
  epoch : Nat
deriving DecidableEq

/-- Embedding of `SnowflakeGenerator::new_with_epoch` (src/generator.rs). -/
def SnowflakeGenerator.new_with_epoch (worker process epoch : Nat) : SnowflakeGenerator :=
  { worker := worker, process := process, increment := 0, epoch := epoch }

/-- Embedding of `SnowflakeGenerator::new` (src/generator.rs). -/
def SnowflakeGenerator.new (worker process : Nat) : SnowflakeGenerator :=
  SnowflakeGenerator.new_with_epoch worker process AIRDASH_EPOCH

/-- Embedding of `SnowflakeGenerator::generate` (src/generator.rs): builds
a snowflake from the stored state and the current wall clock (passed as
`now_millis`), then advances the stored increment with
`u16::wrapping_add(1)`, i.e. `% 2^16`. Returns the snowflake together with
the updated generator state. -/
def SnowflakeGenerator.generate (g : SnowflakeGenerator) (now_millis : Int) :
    Snowflake × SnowflakeGenerator :=
  let snowflake := Snowflake.new_with_timestamp g.worker g.process g.increment now_millis g.epoch
  (snowflake, { g with increment := (g.increment + 1) % 2 ^ 16 })

/-- Embedding of `Iterator::next` for `SnowflakeGenerator`
(src/generator.rs): `Some(self.generate())`. -/
def SnowflakeGenerator.next (g : SnowflakeGenerator) (now_millis : Int) :
    Option Snowflake × SnowflakeGenerator :=
  let r := g.generate now_millis
  (some r.1, r.2)

/-- A run of the iterator: pull one snowflake per supplied wall-clock
reading, threading the generator state. -/
def SnowflakeGenerator.generateAll (g : SnowflakeGenerator) :
    List Int → List Snowflake × SnowflakeGenerator
  | [] => ([], g)
  | t :: ts =>
    let r := g.generate t
    let rest := r.2.generateAll ts
    (r.1 :: rest.1, rest.2)

/-- The packing formula exactly as the spec's invariant states it: each of
the four fields is masked to its own bit width before being shifted into
place. Stated for comparison with `value_from_parts`. -/
def spec_pack (timestampOffset worker process increment : Nat) : Nat :=
  ((timestampOffset % 2 ^ 42) <<< 22) ||| ((worker % 2 ^ 5) <<< 17) |||
    ((process % 2 ^ 5) <<< 12) ||| (increment % 2 ^ 12)

/-- Error kind for text parsing, as the spec names it. -/
inductive SnowflakeParseError where
  | malformedInteger
deriving DecidableEq

/-- Digit-by-digit accumulation of an unsigned 64-bit decimal numeral,
rejecting non-digit characters and overflow beyond `2^64 - 1`. -/
def parse_u64_go : List Char → Nat → Except SnowflakeParseError Nat
  | [], acc => .ok acc
  | c :: cs, acc =>
    if c.isDigit then
      let d := c.toNat - 48
      let acc' := acc * 10 + d
      if acc' < 2 ^ 64 then parse_u64_go cs acc' else .error .malformedInteger
    else .error .malformedInteger

/-- Modelled from the spec: the text-to-identifier deserialization path.
The parsing itself lives in external crates (`serde_aux` plus core's `u64`
`FromStr`), not under src/; the spec says it "accepts only a quoted/plain
decimal numeral", rejects "non-digit characters, empty string, or overflow
beyond 2^64−1" with a `MalformedInteger` kind, and constructs the
identifier via `FromValue` with the default epoch. -/
def deserialize_snowflake (s : String) : Except SnowflakeParseError Snowflake :=
  match s.data with
  | [] => .error .malformedInteger
  | c :: cs =>
    (parse_u64_go (c :: cs) 0).map (fun v => Snowflake.from_value v AIRDASH_EPOCH)

/-! ### Helper lemmas -/

theorem value_from_parts_def (ts w p i : Nat) :
    value_from_parts ts w p i =
      ((((ts <<< 22) % 2 ^ 64) ||| ((w <<< 17) % 2 ^ 64)) ||| ((p <<< 12) % 2 ^ 64)) ||| i := rfl

theorem or_eq_add_of_lt (k a b : Nat) (ha : a % 2 ^ k = 0) (hb : b < 2 ^ k) :
    a ||| b = a + b := by
  obtain ⟨q, hq⟩ := Nat.dvd_of_mod_eq_zero ha
  subst hq
  exact (Nat.mul_add_lt_is_or hb q).symm

theorem or_mod_two_pow (a b k : Nat) :
    (a ||| b) % 2 ^ k = (a % 2 ^ k) ||| (b % 2 ^ k) := by
  apply Nat.eq_of_testBit_eq
  intro i
  simp only [Nat.testBit_mod_two_pow, Nat.testBit_or]
  by_cases h : i < k <;> simp [h]

theorem pack_decomp (ts w p i : Nat) (hw : w < 2 ^ 5) (hp : p < 2 ^ 8) (hi : i < 2 ^ 16) :
    ∃ low, low < 2 ^ 22 ∧
      value_from_parts ts w p i = (ts <<< 22) % 2 ^ 64 + low := by
  refine ⟨(w <<< 17) ||| ((p <<< 12) ||| i), ?_, ?_⟩
  · apply Nat.or_lt_two_pow
    · rw [Nat.shiftLeft_eq]; omega
    · apply Nat.or_lt_two_pow
      · rw [Nat.shiftLeft_eq]; omega
      · omega
  · rw [value_from_parts_def]
    rw [Nat.mod_eq_of_lt (a := w <<< 17) (by rw [Nat.shiftLeft_eq]; omega)]
    rw [Nat.mod_eq_of_lt (a := p <<< 12) (by rw [Nat.shiftLeft_eq]; omega)]
    rw [Nat.or_assoc, Nat.or_assoc]
    apply or_eq_add_of_lt 22
    · rw [Nat.mod_mod_of_dvd _ (by norm_num : (2 ^ 22 : Nat) ∣ 2 ^ 64)]
      rw [Nat.shiftLeft_eq]
      rw [show ts * 2 ^ 22 = ts * 2 ^ 22 % 2 ^ 22 + 2 ^ 22 * (ts * 2 ^ 22 / 2 ^ 22) from by omega]
      omega
    · apply Nat.or_lt_two_pow
      · rw [Nat.shiftLeft_eq]; omega
      · apply Nat.or_lt_two_pow
        · rw [Nat.shiftLeft_eq]; omega
        · omega

theorem value_from_parts_eq_add (ts w p i : Nat)
    (hts : ts < 2 ^ 42) (hw : w < 2 ^ 5) (hp : p < 2 ^ 5) (hi : i < 2 ^ 12) :
    value_from_parts ts w p i = ts * 2 ^ 22 + w * 2 ^ 17 + p * 2 ^ 12 + i := by
  rw [value_from_parts_def, Nat.shiftLeft_eq, Nat.shiftLeft_eq, Nat.shiftLeft_eq]
  rw [Nat.mod_eq_of_lt (by omega), Nat.mod_eq_of_lt (by omega), Nat.mod_eq_of_lt (by omega)]
  rw [Nat.or_assoc, Nat.or_assoc]
  rw [or_eq_add_of_lt 12 (p * 2 ^ 12) i (Nat.mul_mod_left _ _) hi]
  rw [or_eq_add_of_lt 17 (w * 2 ^ 17) (p * 2 ^ 12 + i) (Nat.mul_mod_left _ _) (by omega)]
  rw [or_eq_add_of_lt 22 (ts * 2 ^ 22) (w * 2 ^ 17 + (p * 2 ^ 12 + i)) (Nat.mul_mod_left _ _)
    (by omega)]
  omega

theorem pack_timestamp (ts w p i : Nat)
    (hts : ts < 2 ^ 42) (hw : w < 2 ^ 5) (hp : p < 2 ^ 8) (hi : i < 2 ^ 16) :
    (value_from_parts ts w p i) >>> 22 = ts := by
  obtain ⟨low, hlow, hv⟩ := pack_decomp ts w p i hw hp hi
  rw [hv, Nat.shiftRight_eq_div_pow, Nat.shiftLeft_eq,
    Nat.mod_eq_of_lt (by omega : ts * 2 ^ 22 < 2 ^ 64)]
  omega

theorem pack_inc_succ (ts w p i : Nat) (h : i % 2 ^ 12 ≠ 2 ^ 12 - 1) :
    value_from_parts ts w p (i + 1) = value_from_parts ts w p i + 1 := by
  rw [value_from_parts_def, value_from_parts_def]
  have hC : ((((ts <<< 22) % 2 ^ 64) ||| ((w <<< 17) % 2 ^ 64)) ||| ((p <<< 12) % 2 ^ 64))
      % 2 ^ 12 = 0 := by
    rw [or_mod_two_pow, or_mod_two_pow]
    rw [Nat.mod_mod_of_dvd _ (by norm_num : (2 ^ 12 : Nat) ∣ 2 ^ 64)]
    rw [Nat.mod_mod_of_dvd _ (by norm_num : (2 ^ 12 : Nat) ∣ 2 ^ 64)]
    rw [Nat.mod_mod_of_dvd _ (by norm_num : (2 ^ 12 : Nat) ∣ 2 ^ 64)]
    rw [Nat.shiftLeft_eq, Nat.shiftLeft_eq, Nat.shiftLeft_eq]
    rw [show ts * 2 ^ 22 = ts * 2 ^ 10 * 2 ^ 12 from by ring,
      show w * 2 ^ 17 = w * 2 ^ 5 * 2 ^ 12 from by ring]
    rw [Nat.mul_mod_left, Nat.mul_mod_left, Nat.mul_mod_left]
    rfl
  set C := (((ts <<< 22) % 2 ^ 64) ||| ((w <<< 17) % 2 ^ 64)) ||| ((p <<< 12) % 2 ^ 64) with hCdef
  have hq : i = i / 2 ^ 12 * 2 ^ 12 + i % 2 ^ 12 := by omega
  have hr : i % 2 ^ 12 < 2 ^ 12 - 1 := by
    have := Nat.mod_lt i (y := 2 ^ 12) (by norm_num)
    omega
  have hB : (C ||| i / 2 ^ 12 * 2 ^ 12) % 2 ^ 12 = 0 := by
    rw [or_mod_two_pow, hC, Nat.mul_mod_left]
    rfl
  have split_i : ∀ r, r < 2 ^ 12 → C ||| (i / 2 ^ 12 * 2 ^ 12 + r) =
      (C ||| i / 2 ^ 12 * 2 ^ 12) + r := by
    intro r hrlt
    rw [← or_eq_add_of_lt 12 (i / 2 ^ 12 * 2 ^ 12) r (Nat.mul_mod_left _ _) hrlt]
    rw [← Nat.or_assoc]
    exact or_eq_add_of_lt 12 _ r hB hrlt
  have h1 : C ||| i = (C ||| i / 2 ^ 12 * 2 ^ 12) + i % 2 ^ 12 := by
    conv_lhs => rw [hq]
    exact split_i _ (by omega)
  have h2 : C ||| (i + 1) = (C ||| i / 2 ^ 12 * 2 ^ 12) + (i % 2 ^ 12 + 1) := by
    have : i + 1 = i / 2 ^ 12 * 2 ^ 12 + (i % 2 ^ 12 + 1) := by omega
    rw [this]
    exact split_i _ (by omega)
  omega

theorem generateAll_length (ts : List Int) :
    ∀ g : SnowflakeGenerator, (g.generateAll ts).1.length = ts.length := by
  induction ts with
  | nil => intro g; rfl
  | cons t ts ih =>
    intro g
    simp only [SnowflakeGenerator.generateAll, List.length_cons]
    rw [ih]

theorem generateAll_replicate_state (n : Nat) :
    ∀ (g : SnowflakeGenerator) (t : Int), g.increment < 2 ^ 16 →
      (g.generateAll (List.replicate n t)).2 =
        { g with increment := (g.increment + n) % 2 ^ 16 } := by
  induction n with
  | zero =>
    intro g t h
    simp only [List.replicate, SnowflakeGenerator.generateAll]
    rw [Nat.add_zero, Nat.mod_eq_of_lt h]
  | succ n ih =>
    intro g t h
    rw [List.replicate_succ]
    show ((g.generate t).2.generateAll (List.replicate n t)).2 = _
    rw [ih (g.generate t).2 t (by exact Nat.mod_lt _ (by norm_num))]
    simp only [SnowflakeGenerator.generate]
    congr 1
    omega

theorem u64_as_i64_roundtrip (n : Nat) (h : n < 2 ^ 64) : i64_as_u64 (u64_as_i64 n) = n := by
  unfold u64_as_i64 i64_as_u64
  split <;> omega

theorem offset_eval (t : Int) (E : Nat) (hE : E < 2 ^ 63)
    (h1 : (E : Int) ≤ t) (h2 : t < (E : Int) + 2 ^ 42) :
    i64_as_u64 (i64_wrap (t - u64_as_i64 E)) = (t - (E : Int)).toNat := by
  unfold u64_as_i64 i64_wrap i64_as_u64
  rw [if_pos hE]
  omega

theorem from_value_value (v e : Nat) : (Snowflake.from_value v e).value = v := rfl

theorem from_value_epoch (v e : Nat) : (Snowflake.from_value v e).epoch = e := rfl

theorem new_with_timestamp_value (w p i : Nat) (t : Int) (e : Nat) :
    (Snowflake.new_with_timestamp w p i t e).value =
      value_from_parts (i64_as_u64 (i64_wrap (t - u64_as_i64 e))) w p i := rfl

theorem worker_eq_div_mod (s : Snowflake) : s.worker = s.value / 2 ^ 17 % 2 ^ 5 := by
  show s.value >>> 17 &&& 0b11111 = _
  rw [Nat.shiftRight_eq_div_pow]
  exact Nat.and_pow_two_sub_one_eq_mod _ 5

theorem process_eq_div_mod (s : Snowflake) : s.process = s.value / 2 ^ 12 % 2 ^ 5 := by
  show s.value >>> 12 &&& 0b11111 = _
  rw [Nat.shiftRight_eq_div_pow]
  exact Nat.and_pow_two_sub_one_eq_mod _ 5

theorem increment_eq_mod (s : Snowflake) : s.increment = s.value % 2 ^ 12 := by
  show s.value &&& 0b111111111111 = _
  exact Nat.and_pow_two_sub_one_eq_mod _ 12

theorem timestamp_eq_div (s : Snowflake) : s.timestamp = s.value / 2 ^ 22 := by
  show s.value >>> 22 = _
  rw [Nat.shiftRight_eq_div_pow]

/-! ### Claims -/

/-- C3: for all worker in [0,31], process in [0,31], increment in [0,4095]
and timestampOffset in [0, 2^42−1], unpacking the value produced by the
packing function with the four accessors returns exactly the same four
input values (under any epoch carried alongside). -/
theorem c3_pack_unpack_roundtrip (ts w p i e : Nat)
    (hts : ts ≤ 2 ^ 42 - 1) (hw : w ≤ 31) (hp : p ≤ 31) (hi : i ≤ 4095) :
    (Snowflake.from_value (value_from_parts ts w p i) e).worker = w ∧
    (Snowflake.from_value (value_from_parts ts w p i) e).process = p ∧
    (Snowflake.from_value (value_from_parts ts w p i) e).increment = i ∧
    (Snowflake.from_value (value_from_parts ts w p i) e).timestamp = ts := by
  have hv := value_from_parts_eq_add ts w p i (by omega) (by omega) (by omega) (by omega)
  rw [worker_eq_div_mod, process_eq_div_mod, increment_eq_mod, timestamp_eq_div,
    from_value_value, hv]
  refine ⟨?_, ?_, ?_, ?_⟩ <;> omega

theorem c3_witness :
    ((5 : Nat) ≤ 2 ^ 42 - 1 ∧ (8 : Nat) ≤ 31 ∧ (26 : Nat) ≤ 31 ∧ (543 : Nat) ≤ 4095) ∧
    ((Snowflake.from_value (value_from_parts 5 8 26 543) 7).worker = 8 ∧
     (Snowflake.from_value (value_from_parts 5 8 26 543) 7).process = 26 ∧
     (Snowflake.from_value (value_from_parts 5 8 26 543) 7).increment = 543 ∧
     (Snowflake.from_value (value_from_parts 5 8 26 543) 7).timestamp = 5) :=
  ⟨by decide, c3_pack_unpack_roundtrip 5 8 26 543 7 (by decide) (by decide) (by decide) (by decide)⟩

/-- C7: parsing a text representation that is not a valid unsigned 64-bit
decimal numeral — the inputs given are non-numeric text, the empty string,
and 2^64 — fails with the MalformedInteger kind; it never succeeds by
silently wrapping the value. -/
theorem c7_parse_rejection :
    deserialize_snowflake ("abc") = Except.error SnowflakeParseError.malformedInteger ∧
    deserialize_snowflake ("") = Except.error SnowflakeParseError.malformedInteger ∧
    deserialize_snowflake ("18446744073709551616") =
      Except.error SnowflakeParseError.malformedInteger := by
  refine ⟨rfl, rfl, rfl⟩

/-- C8: packing and generation never fail: `next` always yields `some`
identifier (the one `generate` builds), and pulling the generator once per
supplied wall-clock reading yields exactly one identifier per pull. -/
theorem c8_generation_total (g : SnowflakeGenerator) (now : Int) (ts : List Int) :
    (g.next now).1 = some (g.generate now).1 ∧
    (g.generateAll ts).1.length = ts.length :=
  ⟨rfl, generateAll_length ts g⟩

/-- C9: reinterpreting an identifier's 64-bit unsigned value as a signed
64-bit integer and back is an exact round-trip, and wrapping that
reinterpreted value with from_value under the same epoch reconstructs an
identifier equal to the original. -/
theorem c9_signed_roundtrip (s : Snowflake) (h : s.value < 2 ^ 64) :
    i64_as_u64 s.as_i64 = s.as_u64 ∧
    Snowflake.from_value (i64_as_u64 s.as_i64) s.epoch = s := by
  obtain ⟨v, e⟩ := s
  have hr := u64_as_i64_roundtrip v h
  refine ⟨hr, ?_⟩
  show Snowflake.from_value (i64_as_u64 (u64_as_i64 v)) e = _
  rw [hr]
  rfl

theorem c9_witness :
    ((⟨2 ^ 63 + 5, 42⟩ : Snowflake).value < 2 ^ 64) ∧
    (i64_as_u64 (⟨2 ^ 63 + 5, 42⟩ : Snowflake).as_i64 = (⟨2 ^ 63 + 5, 42⟩ : Snowflake).as_u64 ∧
     Snowflake.from_value (i64_as_u64 (⟨2 ^ 63 + 5, 42⟩ : Snowflake).as_i64)
       (⟨2 ^ 63 + 5, 42⟩ : Snowflake).epoch = ⟨2 ^ 63 + 5, 42⟩) :=
  ⟨by decide, c9_signed_roundtrip ⟨2 ^ 63 + 5, 42⟩ (by decide)⟩

/-- C10: for every 64-bit value and every epoch — including values never
produced by packing — the wrapped identifier reports fields within their
documented bounds: worker and process at most 31, increment at most 4095,
timestamp at most 2^42 − 1. -/
theorem c10_accessor_bounds (v e : Nat) (h : v < 2 ^ 64) :
    (Snowflake.from_value v e).worker ≤ 31 ∧
    (Snowflake.from_value v e).process ≤ 31 ∧
    (Snowflake.from_value v e).increment ≤ 4095 ∧
    (Snowflake.from_value v e).timestamp ≤ 2 ^ 42 - 1 := by
  rw [worker_eq_div_mod, process_eq_div_mod, increment_eq_mod, timestamp_eq_div,
    from_value_value]
  refine ⟨?_, ?_, ?_, ?_⟩ <;> omega

theorem c10_witness :
    ((2 ^ 64 - 1 : Nat) < 2 ^ 64) ∧
    ((Snowflake.from_value (2 ^ 64 - 1) 0).worker ≤ 31 ∧
     (Snowflake.from_value (2 ^ 64 - 1) 0).process ≤ 31 ∧
     (Snowflake.from_value (2 ^ 64 - 1) 0).increment ≤ 4095 ∧
     (Snowflake.from_value (2 ^ 64 - 1) 0).timestamp ≤ 2 ^ 42 - 1) :=
  ⟨by decide, c10_accessor_bounds (2 ^ 64 - 1) 0 (by decide)⟩

/-- C1 counterexample: the claim's masked packing formula disagrees with
the code at worker = 32 (a `u8` input one past the documented maximum):
the code produces 2^22, the claimed formula produces 0, and the stray bit
lands in the timestamp field of the packed value. -/
theorem c1_counterexample :
    value_from_parts 0 32 0 0 ≠ spec_pack 0 32 0 0 ∧
    (Snowflake.from_value (value_from_parts 0 32 0 0) 0).timestamp = 1 := by
  refine ⟨by decide, by decide⟩

/-- C1 (amended): for every worker, process, increment input of its
machine type (u8, u8, u16) and every u64 timestampOffset, the packed value
equals ((timestampOffset mod 2^42) << 22) | (worker << 17) |
(process << 12) | increment: only the timestamp is truncated (by the u64
shift); worker, process and increment are or-ed in unmasked, so
out-of-range values spill into adjacent higher fields. -/
theorem c1_pack_formula (ts w p i : Nat)
    (hw : w < 2 ^ 8) (hp : p < 2 ^ 8) (hi : i < 2 ^ 16) :
    value_from_parts ts w p i =
      (((ts % 2 ^ 42) <<< 22) ||| (w <<< 17)) ||| (p <<< 12) ||| i := by
  rw [value_from_parts_def]
  rw [Nat.mod_eq_of_lt (a := w <<< 17) (by rw [Nat.shiftLeft_eq]; omega)]
  rw [Nat.mod_eq_of_lt (a := p <<< 12) (by rw [Nat.shiftLeft_eq]; omega)]
  rw [show (ts <<< 22) % 2 ^ 64 = (ts % 2 ^ 42) <<< 22 from by
    rw [Nat.shiftLeft_eq, Nat.shiftLeft_eq,
      show (2 : Nat) ^ 64 = 2 ^ 42 * 2 ^ 22 from by norm_num]
    exact Nat.mul_mod_mul_right (2 ^ 22) ts (2 ^ 42)]

theorem c1_pack_formula_witness :
    ((255 : Nat) < 2 ^ 8 ∧ (200 : Nat) < 2 ^ 8 ∧ (60000 : Nat) < 2 ^ 16) ∧
    value_from_parts (2 ^ 42 + 7) 255 200 60000 =
      ((((2 ^ 42 + 7) % 2 ^ 42) <<< 22) ||| (255 <<< 17)) ||| (200 <<< 12) ||| 60000 :=
  ⟨by decide, c1_pack_formula (2 ^ 42 + 7) 255 200 60000 (by decide) (by decide) (by decide)⟩

/-- C2 fails on the code: starting from a fresh generator, the 4096th call
leaves the stored increment counter at 4096, not 0 — `wrapping_add` on the
`u16` counter wraps at 2^16, not at 4096 as the claim (and the crate's own
documentation and tests) require. -/
theorem c2_increment_not_wrapped_at_4096 :
    ((SnowflakeGenerator.new 8 26).generateAll (List.replicate 4096 0)).2.increment = 4096 := by
  rw [generateAll_replicate_state 4096 (SnowflakeGenerator.new 8 26) 0 (by decide)]
  decide

/-- C4 fails on the code: on the generator constructed with worker = 8 and
process = 26, the 4097th generated identifier (stored increment 4096, bit
12 set) reports process() = 27, because the unmasked increment bit or-ed
into the process field flips its low bit. This contradicts the crate's own
test, which asserts process() = 26 across 500000 generated identifiers. -/
theorem c4_process_corrupted_after_4096_calls :
    (((SnowflakeGenerator.new 8 26).generateAll (List.replicate 4096 0)).2.generate 0).1.process
      = 27 := by
  rw [generateAll_replicate_state 4096 (SnowflakeGenerator.new 8 26) 0 (by decide)]
  decide

/-- C6 counterexample: with epoch 0 and wall clock 2^42 (so W ≥ E), the
42-bit timestamp field overflows and the decoded absolute timestamp is 0,
not W. -/
theorem c6_counterexample :
    (0 : Nat) ≤ 2 ^ 42 ∧
    (Snowflake.new_with_timestamp 0 0 0 ((2 ^ 42 : Int)) 0).offset_timestamp ≠ 2 ^ 42 := by
  refine ⟨by decide, by decide⟩

/-- C6 (amended): for every epoch E and wall-clock W with E ≤ W, W − E <
2^42 and W within the i64 range (and worker within its 5-bit range,
process and increment within their machine types), the identifier built
from wall clock W with epoch E reports offset_timestamp() = W. -/
theorem c6_epoch_arithmetic (w p i W E : Nat)
    (hw : w ≤ 31) (hp : p < 2 ^ 8) (hi : i < 2 ^ 16)
    (hE : E ≤ W) (hrange : W - E < 2 ^ 42) (hW : W < 2 ^ 63) :
    (Snowflake.new_with_timestamp w p i (W : Int) E).offset_timestamp = W := by
  have hE63 : E < 2 ^ 63 := Nat.lt_of_le_of_lt hE hW
  have hoff := offset_eval (W : Int) E hE63 (by exact_mod_cast hE) (by push_cast; omega)
  show ((Snowflake.new_with_timestamp w p i (W : Int) E).value >>> 22 + E) % 2 ^ 64 = W
  rw [new_with_timestamp_value, hoff]
  rw [pack_timestamp (((W : Int) - (E : Nat)).toNat) w p i (by omega) (by omega) hp hi]
  omega

theorem c6_epoch_arithmetic_witness :
    ((8 : Nat) ≤ 31 ∧ (26 : Nat) < 2 ^ 8 ∧ (543 : Nat) < 2 ^ 16 ∧
     (1500000 : Nat) ≤ 2000000 ∧ (2000000 : Nat) - 1500000 < 2 ^ 42 ∧
     (2000000 : Nat) < 2 ^ 63) ∧
    (Snowflake.new_with_timestamp 8 26 543 ((2000000 : Nat) : Int) 1500000).offset_timestamp
      = 2000000 :=
  ⟨by decide, c6_epoch_arithmetic 8 26 543 2000000 1500000 (by decide) (by decide) (by decide)
    (by decide) (by decide) (by decide)⟩

/-- C5 counterexample: a run that keeps fewer than 4096 identifiers per
millisecond (4095 pulls at millisecond 0, then two pulls at millisecond 1)
with a never-decreasing wall clock still produces a successive pair whose
packed values strictly decrease: the pair generated at millisecond 1 with
stored increments 4095 and 4096 on the generator with worker = 0, process
= 1, epoch = 0. -/
theorem c5_counterexample :
    ((((SnowflakeGenerator.new_with_epoch 0 1 0).generateAll
        (List.replicate 4095 0)).2.generate 1).2.generate 1).1.value <
    (((SnowflakeGenerator.new_with_epoch 0 1 0).generateAll
        (List.replicate 4095 0)).2.generate 1).1.value := by
  rw [generateAll_replicate_state 4095 (SnowflakeGenerator.new_with_epoch 0 1 0) 0 (by decide)]
  decide

/-- C5 (amended): for two successive generate() calls on the same
generator (worker and process within their 5-bit ranges, increment within
its u16 range, epoch and wall clocks within sane i64/42-bit ranges), the
later packed value is greater than or equal to the earlier one provided
the later wall clock is not smaller than the earlier one AND either the
wall-clock millisecond strictly advanced or the stored increment's low 12
bits are not all ones (i.e. the 12-bit increment field does not wrap
between the two calls). -/
theorem c5_pairwise_monotone (g : SnowflakeGenerator) (t1 t2 : Int)
    (hw : g.worker ≤ 31) (hp : g.process ≤ 31) (hinc : g.increment < 2 ^ 16)
    (hep : g.epoch < 2 ^ 63)
    (hE : (g.epoch : Int) ≤ t1) (h12 : t1 ≤ t2) (hrange : t2 < (g.epoch : Int) + 2 ^ 42)
    (hcase : t1 < t2 ∨ g.increment % 2 ^ 12 ≠ 2 ^ 12 - 1) :
    ((g.generate t1).1).value ≤ (((g.generate t1).2).generate t2).1.value := by
  have hoff1 := offset_eval t1 g.epoch hep hE (by omega)
  have hoff2 := offset_eval t2 g.epoch hep (le_trans hE h12) hrange
  have ho1 : (t1 - (g.epoch : Int)).toNat < 2 ^ 42 := by omega
  have ho2 : (t2 - (g.epoch : Int)).toNat < 2 ^ 42 := by omega
  have hoo : (t1 - (g.epoch : Int)).toNat ≤ (t2 - (g.epoch : Int)).toNat := by omega
  have hv1 : ((g.generate t1).1).value =
      value_from_parts ((t1 - (g.epoch : Int)).toNat) g.worker g.process g.increment := by
    show (Snowflake.new_with_timestamp g.worker g.process g.increment t1 g.epoch).value = _
    rw [new_with_timestamp_value, hoff1]
  have hv2 : (((g.generate t1).2).generate t2).1.value =
      value_from_parts ((t2 - (g.epoch : Int)).toNat) g.worker g.process
        ((g.increment + 1) % 2 ^ 16) := by
    show (Snowflake.new_with_timestamp g.worker g.process ((g.increment + 1) % 2 ^ 16)
      t2 g.epoch).value = _
    rw [new_with_timestamp_value, hoff2]
  rw [hv1, hv2]
  rcases Nat.lt_or_ge ((t1 - (g.epoch : Int)).toNat) ((t2 - (g.epoch : Int)).toNat) with hlt | hge
  · obtain ⟨l1, hl1, he1⟩ := pack_decomp ((t1 - (g.epoch : Int)).toNat) g.worker g.process
      g.increment (by omega) (by omega) hinc
    obtain ⟨l2, hl2, he2⟩ := pack_decomp ((t2 - (g.epoch : Int)).toNat) g.worker g.process
      ((g.increment + 1) % 2 ^ 16) (by omega) (by omega) (Nat.mod_lt _ (by norm_num))
    rw [he1, he2, Nat.shiftLeft_eq, Nat.shiftLeft_eq]
    rw [Nat.mod_eq_of_lt (by omega), Nat.mod_eq_of_lt (by omega)]
    omega
  · have heq : (t1 - (g.epoch : Int)).toNat = (t2 - (g.epoch : Int)).toNat :=
      Nat.le_antisymm hoo hge
    have hcase' : g.increment % 2 ^ 12 ≠ 2 ^ 12 - 1 := by
      rcases hcase with h | h
      · exfalso; omega
      · exact h
    have hne : g.increment + 1 < 2 ^ 16 := by omega
    rw [heq, Nat.mod_eq_of_lt hne,
      pack_inc_succ ((t2 - (g.epoch : Int)).toNat) g.worker g.process g.increment hcase']
    omega

theorem c5_pairwise_monotone_witness :
    ((SnowflakeGenerator.new_with_epoch 8 26 0).worker ≤ 31 ∧
     (SnowflakeGenerator.new_with_epoch 8 26 0).process ≤ 31 ∧
     (SnowflakeGenerator.new_with_epoch 8 26 0).increment < 2 ^ 16 ∧
     (SnowflakeGenerator.new_with_epoch 8 26 0).epoch < 2 ^ 63 ∧
     ((SnowflakeGenerator.new_with_epoch 8 26 0).epoch : Int) ≤ 5 ∧ (5 : Int) ≤ 5 ∧
     (5 : Int) < ((SnowflakeGenerator.new_with_epoch 8 26 0).epoch : Int) + 2 ^ 42 ∧
     ((5 : Int) < 5 ∨ (SnowflakeGenerator.new_with_epoch 8 26 0).increment % 2 ^ 12 ≠
       2 ^ 12 - 1)) ∧
    (((SnowflakeGenerator.new_with_epoch 8 26 0).generate 5).1).value ≤
      ((((SnowflakeGenerator.new_with_epoch 8 26 0).generate 5).2).generate 5).1.value :=
  ⟨⟨by decide, by decide, by decide, by decide, by decide, by decide, by decide,
    Or.inr (by decide)⟩,
   c5_pairwise_monotone (SnowflakeGenerator.new_with_epoch 8 26 0) 5 5 (by decide) (by decide)
     (by decide) (by decide) (by decide) (by decide) (by decide) (Or.inr (by decide))⟩
